import Mathlib

set_option maxRecDepth 100000
set_option linter.unusedVariables false

/-!
Verification of the bpch-to-netCDF name-harmonization engine of gcpy
(src/gcpy/core.py, function convert_bpch_names_to_netcdf_names).

The engine scans an ordered rule table, testing each rule's pattern as a
substring of the legacy variable name (first match wins), then composes a
final name according to the rule's strategy (replace / append / skip) and
a family-specific composition, and finally remaps certain fully-composed
candidate names through an override table (special_vars).

Strings are modelled by Lean strings; the Python substring test
(key in variable_name), str.split("_")[-1] and s[:-2] are modelled
explicitly below.
-/

/-- Boolean test that the first list is a prefix of the second,
comparing characters for equality. -/
def isPrefixL : List Char → List Char → Bool
  | [], _ => true
  | _ :: _, [] => false
  | c :: cs, d :: ds => c = d && isPrefixL cs ds

/-- Boolean test that the needle occurs as a contiguous sublist of the
haystack; models the Python containment test (needle in haystack). -/
def containsL (hay nee : List Char) : Bool :=
  match hay with
  | [] => nee.isEmpty
  | _ :: t => isPrefixL nee hay || containsL t nee

/-- (key in variable_name) for strings: key occurs anywhere within name. -/
def isSubstr (key name : String) : Bool :=
  containsL name.data key.data

/-- Characters after the last underscore of the list (the whole list when no
underscore occurs); models variable_name.split("_")[-1]. -/
def lastTokenL (s : List Char) : List Char :=
  s.foldl (fun acc c => if c = '_' then [] else acc ++ [c]) []

/-- String form of lastTokenL. -/
def lastToken (s : String) : String :=
  ⟨lastTokenL s.data⟩

/-- Drop the final two characters of a string; models varstr[:-2]. -/
def dropLast2 (s : String) : String :=
  ⟨s.data.take (s.data.length - 2)⟩

/-- The ordered rule table of convert_bpch_names_to_netcdf_names
(src/gcpy/core.py lines 255-428): for each rule, the bpch pattern, the
netCDF id fragment, and the action string. Declaration order is the
iteration order of the Python dict literal. -/
def names : List (String × String × String) := [
  ("IJ_AVG_S_", "SpeciesConc", "append"),
  ("OD_MAP_S_OPD1550", "AODDust550nm_bin1", "replace"),
  ("OD_MAP_S_OPD2550", "AODDust550nm_bin2", "replace"),
  ("OD_MAP_S_OPD3550", "AODDust550nm_bin3", "replace"),
  ("OD_MAP_S_OPD4550", "AODDust550nm_bin4", "replace"),
  ("OD_MAP_S_OPD5550", "AODDust550nm_bin5", "replace"),
  ("OD_MAP_S_OPD6550", "AODDust550nm_bin6", "replace"),
  ("OD_MAP_S_OPD7550", "AODDust550nm_bin7", "replace"),
  ("OD_MAP_S_OPSO4550", "AODHyg550nm_SO4", "replace"),
  ("OD_MAP_S_OPBC550", "AODHyg550nm_BCPI", "replace"),
  ("OD_MAP_S_OPOC550", "AODHyg550nm_OCPI", "replace"),
  ("OD_MAP_S_OPSSa550", "AODHyg550nm_SALA", "replace"),
  ("OD_MAP_S_OPSSc550", "AODHyg550nm_SALC", "replace"),
  ("OD_MAP_S_ODSLA", "AODStratLiquidAer550nm", "replace"),
  ("ACETSRCE_ACETbg", "EmisACET_DirectBio", "replace"),
  ("ACETSRCE_ACETmb", "EmisACET_MethylBut", "replace"),
  ("ACETSRCE_ACETmo", "EmissACET_Monoterp", "replace"),
  ("ACETSRCE_ACETop", "EmissACET_Ocean", "replace"),
  ("ANTHSRCE_", "Anthro", "append"),
  ("BC_ANTH_BLKC", "EmisBC_Anthro", "skip"),
  ("BC_BIOB_BLKC", "EmisBC_BioBurn", "skip"),
  ("BC_BIOF_BLKC", "EmisBC_Biofuel", "skip"),
  ("BIOBSRCE_", "BioBurn", "append"),
  ("BIOFSRCE_", "Biofuel", "append"),
  ("BIOGSRCE_", "Biogenic", "append"),
  ("BXHGHT_S_", "Met", "append"),
  ("CHEM_L_S_OH", "OHconcAfterChem", "replace"),
  ("CHEM_L_S_HO2", "HO2concAfterChem", "replace"),
  ("CHEM_L_S_O1D", "O1DconcAfterChem", "replace"),
  ("CHEM_L_S_O", "O3PconcAfterChem", "replace"),
  ("CO__SRCE_COanth", "EmisCO_Anthro", "skip"),
  ("CO__SRCE_CObb", "EmisCO_BioBurn", "skip"),
  ("CO__SRCE_CObf", "EmisCO_Biofuel", "skip"),
  ("CO__SRCE_COmono", "EmisCO_Monoterp", "replace"),
  ("CO__SRCE_COship", "EmisCO_Ship", "replace"),
  ("CV_FLUX_", "CloudConvFlux", "append"),
  ("DAO_3D_S_", "Met", "append"),
  ("DAO_FLDS_PS_PBL", "Met_PBLH", "skip"),
  ("DAO_FLDS_", "Met", "append"),
  ("DMS_BIOG_DMS", "EmisDMS_Ocean", "replace"),
  ("DRYD_FLX_", "DryDep", "append"),
  ("DRYD_VEL_", "DryDepVel", "append"),
  ("DUST_SRC_", "TBD", "skip"),
  ("DUSTSRCE_DST1", "EmisDST1_Natural", "replace"),
  ("DUSTSRCE_DST2", "EmisDST2_Natural", "replace"),
  ("DUSTSRCE_DST3", "EmisDST3_Natural", "replace"),
  ("DUSTSRCE_DST4", "EmisDST4_Natural", "replace"),
  ("DXYP_DXYP", "Met_AREAM2", "replace"),
  ("ECIL_SRC_", "TBD", "skip"),
  ("ECOB_SRC_", "TBD", "skip"),
  ("EW_FLX_S_", "AdvFluxZonal", "append"),
  ("FJX_FLUX_", "TBD", "skip"),
  ("IJ_24H_S_", "TBD", "skip"),
  ("IJ_MAX_S_", "TBD", "skip"),
  ("IJ_SOA_S_", "AerMass", "append"),
  ("INST_MAP_", "TBD", "skip"),
  ("ISRPIA_S_ISORPH", "Chem_PHSAV", "replace"),
  ("ISRPIA_S_ISORH+", "Chem_HPLUSSAV", "replace"),
  ("ISRPIA_S_ISORH2O", "Chem_WATERSAV", "replace"),
  ("JV_MAP_S_", "JNoon", "append"),
  ("LFLASH_", "TBD", "skip"),
  ("NH3_ANTH_NH3", "EmisNH3_Anthro", "skip"),
  ("NH3_NATU_NH3", "EmisNH3_Natural", "replace"),
  ("NK_EMISS_", "TBD", "skip"),
  ("MC_FRC_S_", "WetLossConvFrac", "append"),
  ("NO_AC_S_NO", "EmisNO_Aircraft", "replace"),
  ("NO_AN_S_NO", "EmisNO_Anthro", "skip"),
  ("NO_FERT_NO", "EmisNO_Fert", "replace"),
  ("NO_LI_S_NO", "EmisNO_Lightning", "replace"),
  ("NO_SOIL_NO", "EmisNO_Soil", "replace"),
  ("NS_FLX_S_", "AdvFluxMerid", "append"),
  ("OC_ANTH_ORGC", "EmisOC_Anthro", "replace"),
  ("OC_LIMO_LIMO", "TBD", "skip"),
  ("OC_MTPA_MTPA", "TBD", "skip"),
  ("OC_MTPO_MTPO", "TBD", "skip"),
  ("OC_SESQ_SESQ", "TBD", "skip"),
  ("OCIL_SRC_", "TBD", "skip"),
  ("OCOB_SRC_", "TBD", "skip"),
  ("OD_MAP_S_OPD", "Met_OPTD", "replace"),
  ("OD_MAP_S_CLDTOT", "Met_CLDF", "replace"),
  ("OD_MAP_S_OPTD", "AODDust", "replace"),
  ("OD_MAP_S_SD", "AerSurfAreaDust", "replace"),
  ("OD_MAP_S_HGSO4", "AerHygroscopicGrowth_SO4", "replace"),
  ("OD_MAP_S_HGBC", "AerHygroscopicGrowth_BCPI", "replace"),
  ("OD_MAP_S_HGOC", "AerHygroscopicGrowth_OCPI", "replace"),
  ("OD_MAP_S_HGSSa", "AerHygroscopicGrowth_SALA", "replace"),
  ("OD_MAP_S_HGSSc", "AerHygroscopicGrowth_SALC", "replace"),
  ("OD_MAP_S_SSO4", "AerSurfAreaHyg_SO4", "replace"),
  ("OD_MAP_S_SBC", "AerSurfAreaHyg_BCPI", "replace"),
  ("OD_MAP_S_SOC", "AerSurfAreaHyg_OCPI", "replace"),
  ("OD_MAP_S_SSSa", "AerSurfAreaHyg_SALA", "replace"),
  ("OD_MAP_S_SSSc", "AerSurfAreaHyg_SALC", "replace"),
  ("OD_MAP_S_SASLA", "AerSurfAreaStratLiquid", "replace"),
  ("OD_MAP_S_NDSLA", "AerNumDensityStratLiquid", "replace"),
  ("OD_MAP_S_ODSPA", "AODPolarStratCloud550nm", "replace"),
  ("OD_MAP_S_SASPA", "AerSurfAreaPolarStratCloud", "replace"),
  ("OD_MAP_S_NDSPA", "AerNumDensityStratParticulate", "replace"),
  ("OD_MAP_S_ISOPAOD", "AODSOAfromAqIsoprene550nm", "replace"),
  ("OD_MAP_S_AQAVOL", "AerAqueousVolume", "replace"),
  ("PBLDEPTH_", "TBD", "skip"),
  ("PEDGE_S_PSURF", "TBD", "skip"),
  ("PG_SRCE_", "TBD", "skip"),
  ("PG_PP_", "TBD", "skip"),
  ("PL_BC_S_BLKC", "ProdBCPIfromBCPO", "replace"),
  ("PL_OC_S_ORGC", "ProdOCPIfromOCPO", "replace"),
  ("PL_OC_S_ASOA", "Prodfrom", "skip"),
  ("PL_OC_S_ISOA", "Prodfrom", "skip"),
  ("PL_OC_S_TSOA", "Prodfrom", "skip"),
  ("PL_SUL_S_SO2dms", "ProdSO2fromDMSandOH", "replace"),
  ("PL_SUL_S_SO2no3", "ProdSO2fromDMSandNO3", "replace"),
  ("PL_SUL_S_SO2tot", "ProdSO2fromDMS", "replace"),
  ("PL_SUL_S_MSAdms", "ProdMSAfromDMS", "replace"),
  ("PL_SUL_S_SO4gas", "ProdSO4fromGasPhase", "replace"),
  ("PL_SUL_S_SO4h2o2", "ProdSO4fromH2O2inCloud", "replace"),
  ("PL_SUL_S_SO4o3s", "ProdSO4fromO3s", "replace"),
  ("PL_SUL_S_SO4o3", "ProdSO4fromO3inCloud", "replace"),
  ("PL_SUL_S_SO4ss", "ProdSO4fromO3inSeaSalt", "replace"),
  ("PL_SUL_S_SO4dust", "ProdSO4fromOxidationOnDust", "replace"),
  ("PL_SUL_S_NITdust", "ProdNITfromHNO3uptakeOnDust", "replace"),
  ("PL_SUL_S_H2SO4dus", "ProdSO4fromUptakeOfH2SO4g", "replace"),
  ("PL_SUL_S_HNO3ss", "LossHNO3onSeaSalt", "replace"),
  ("PL_SUL_S_SO4hobr", "ProdSO4fromHOBrInCloud", "replace"),
  ("PL_SUL_S_SO4sro3", "ProdSO4fromSRO3", "replace"),
  ("PL_SUL_S_SO4srhob", "ProdSO4fromSRHObr", "replace"),
  ("PORL_L_S_PCO_CH4", "ProdCObyCH4", "skip"),
  ("PORL_L_S_PCO_NMVO", "ProdCObyNMVOC", "skip"),
  ("PORL_L_S_PO3", "Prod_O3", "replace"),
  ("PORL_L_S_PCO", "Prod_CO", "replace"),
  ("PORL_L_S_PSO4", "Prod_SO4", "replace"),
  ("PORL_L_S_POx", "Prod_Ox", "replace"),
  ("PORL_L_S_LO3", "Loss_O3", "replace"),
  ("PORL_L_S_LCO", "Loss_CO", "replace"),
  ("PORL_L_S_LOx", "Loss_Ox", "replace"),
  ("RADMAP_", "TBD", "skip"),
  ("RN_SRCE_Rn", "EmisRn_Soil", "replace"),
  ("RN_SRCE_Pb", "PbFromRnDecay", "replace"),
  ("RN_SRCE_Be7", "EmisBe_Cosmic", "replace"),
  ("RN_DECAY_", "RadDecay", "append"),
  ("SALTSRCE_SALA", "EmisSALA_Natural", "replace"),
  ("SALTSRCE_SALC", "EmisSALC_Natural", "replace"),
  ("SHIP_SSS_", "TBD", "skip"),
  ("SO2_AC_S_SO2", "EmisSO2_Aircraft", "replace"),
  ("SO2_AN_S_SO2", "EmisSO2_Anthro", "skip"),
  ("SO2_EV_S_SO2", "EmisSO2_EVOL", "replace"),
  ("SO2_NV_S_SO2", "EmisSO2_NVOL", "replace"),
  ("SO2_SHIP_SO2", "EmisSO2_Ship", "replace"),
  ("SO4_AN_S_SO4", "EmisSO4_Anthro", "skip"),
  ("SO4_BIOF_SO4", "EmisSO4_Biofuel", "replace"),
  ("SF_EMIS_", "TBD", "skip"),
  ("SS_EMIS_", "TBD", "skip"),
  ("THETA_S_THETA", "Met_THETA", "replace"),
  ("TIME_TPS_TIMETROP", "TBD", "skip"),
  ("TMS_COND_", "TBD", "skip"),
  ("TMS_COAG_", "TBD", "skip"),
  ("TMS_NUCL_", "TBD", "skip"),
  ("TMS_AQOX_", "TBD", "skip"),
  ("AERO_FIX_", "TBD", "skip"),
  ("TMS_SOA_", "TBD", "skip"),
  ("TR_PAUSE_TP_HGHT", "Met_TropHt", "replace"),
  ("TR_PAUSE_TP_LEVEL", "Met_TropLev", "replace"),
  ("TR_PAUSE_TP_PRESS", "Met_TROPP", "replace"),
  ("UP_FLX_S_", "AdvFluxVert", "append"),
  ("WETDCV_S_", "WetLossConv", "append"),
  ("WETDLS_S_", "WetLossLS", "append"),
  ("PG-PP_S_", "POPS", "append"),
  ("NH3_BIOB_NH3", "EmisNH3_BioBurn", "skip"),
  ("NH3_BIOF_NH3", "EmisNH3_Biofuel", "skip"),
  ("NO_BIOB_NO", "EmisNO_BioBurn", "skip"),
  ("NO_BIOF_NO", "EmisNO_Biofuel", "skip"),
  ("OC_BIOB_ORGC", "EmisOC_BioBurn", "skip"),
  ("OC_BIOF_ORGC", "EmisOC_Biofuel", "skip"),
  ("OC_BIOG_ORGC", "EmisOC_Biogenic", "skip"),
  ("SO2_BIOB_SO2", "EmisSO2_BioBurn", "skip"),
  ("SO2_BIOF_SO2", "EmisSO2_Biofuel", "skip")]

/-- The override table special_vars of src/gcpy/core.py lines 431-444:
candidate final names remapped to corrected final names. -/
def special_vars : List (String × String) := [
  ("AerMassPM25", "PM25"),
  ("AerMassbiogOA", "TotalBiogenicOA"),
  ("AerMasssumOA", "TotalOA"),
  ("AerMasssumOC", "TotalOC"),
  ("AerMassBNO", "BetaNO"),
  ("AerMassOC", "OC"),
  ("Met_AIRNUMDE", "Met_AIRNUMDEN"),
  ("Met_UWND", "Met_U"),
  ("Met_VWND", "Met_V"),
  ("Met_CLDTOP", "Met_CLDTOPS"),
  ("Met_GWET", "Met_GWETTOP"),
  ("Met_PRECON", "Met_PRECCON"),
  ("Met_PREACC", "Met_PRECTOT"),
  ("Met_PBL", "Met_PBLH")]

/-- Look a candidate name up in special_vars and replace it with the
recorded final name when present (src/gcpy/core.py lines 521-523). -/
def applyOverride (s : String) : String :=
  match special_vars.find? (fun p => p.1 = s) with
  | some p => p.2
  | none => s

/-- Rule predicate of the scanning loop: the rule pattern occurs within
the legacy variable name (src/gcpy/core.py line 457, key in variable_name). -/
def ruleMatches (name : String) (r : String × String × String) : Bool :=
  isSubstr r.1 name

/-- The first-match scan of the rule table (src/gcpy/core.py lines 456-466):
scan names in declaration order and return the first rule whose pattern
occurs within the legacy name. -/
def firstMatch (name : String) : Option (String × String × String) :=
  names.find? (ruleMatches name)

/-- The id lists used by the append-composition branches
(src/gcpy/core.py lines 487-489). -/
def defaultAppendIds : List String :=
  ["IJ_AVG_S_", "RN_DECAY_", "WETDCV_S_", "WETDLS_S_", "BXHGHT_S_",
   "DAO_FLDS_", "DAO_3D_S_", "PL_SUL_", "CV_FLX_S_", "EW_FLX_S_",
   "NS_FLX_S_", "UP_FLX_S_", "MC_FRC_S_", "JV_MAP_S_"]

/-- The two ids the inner netCDF-conflict guard tests oldid against
(src/gcpy/core.py line 492). -/
def netcdfConflictIds : List String :=
  ["DAO_FLDS_PS_PBL", "DAO_FLDS_TROPPRAW"]

/-- The source/biogenic family ids (src/gcpy/core.py lines 509-510). -/
def srcBioIds : List String :=
  ["BIOBSRCE_", "BIOFSRCE_", "BIOGSRCE_", "ANTHSRCE_"]

/-- Per-name outcome of the loop body of convert_bpch_names_to_netcdf_names:
either an entry (a new name recorded in old_to_new), no entry, or the
branch at src/gcpy/core.py lines 492-496, which falls through to the
update at line 526 reusing the stale newvar of an earlier iteration
(that branch tests oldid, the matched pattern, against netcdfConflictIds,
and is unreachable because oldid is there constrained to defaultAppendIds,
which is disjoint from netcdfConflictIds; see stale_branch_unreachable). -/
inductive BranchResult where
  | entry (newvar : String)
  | noEntry
  | staleNewvar
deriving DecidableEq

/-- The loop body of convert_bpch_names_to_netcdf_names
(src/gcpy/core.py lines 450-526) for one legacy variable name: first-match
scan, skip handling, replace handling, and the append compositions with
the special_vars override applied to composed candidates. -/
def convertName (name : String) : BranchResult :=
  match firstMatch name with
  | none => .noEntry
  | some (oldid, newid, idaction) =>
    if idaction = "skip" then .noEntry
    else if idaction = "replace" then .entry newid
    else
      let varstr := lastToken name
      if oldid ∈ defaultAppendIds then
        if oldid ∈ netcdfConflictIds then .staleNewvar
        else .entry (applyOverride (newid ++ "_" ++ varstr))
      else if oldid = "IJ_SOA_S_" then .entry (applyOverride (newid ++ varstr))
      else if isSubstr "DRYD_" oldid then
        .entry (applyOverride (newid ++ "_" ++ dropLast2 varstr))
      else if oldid ∈ srcBioIds then
        .entry (applyOverride ("Emis" ++ varstr ++ "_" ++ newid))
      else .noEntry

/-- The candidate final name produced by the replace branch or by an
append composition, before the special_vars override is applied
(none when the name is unmatched, skipped, or no composition is defined). -/
def candidateName (name : String) : Option String :=
  match firstMatch name with
  | none => none
  | some (oldid, newid, idaction) =>
    if idaction = "skip" then none
    else if idaction = "replace" then some newid
    else
      let varstr := lastToken name
      if oldid ∈ defaultAppendIds then
        if oldid ∈ netcdfConflictIds then none
        else some (newid ++ "_" ++ varstr)
      else if oldid = "IJ_SOA_S_" then some (newid ++ varstr)
      else if isSubstr "DRYD_" oldid then
        some (newid ++ "_" ++ dropLast2 varstr)
      else if oldid ∈ srcBioIds then
        some ("Emis" ++ varstr ++ "_" ++ newid)
      else none

/-- The old_to_new mapping built by the loop over ds.data_vars
(src/gcpy/core.py lines 447-526), with the dataset modelled by its ordered
list of variable names. -/
def buildMapping (vars : List String) : List (String × String) :=
  vars.filterMap (fun v =>
    match convertName v with
    | .entry n => some (v, n)
    | _ => none)

/-- The rename mapping holds no entry whose legacy-name key is the given
name. -/
def noEntryFor (m : List (String × String)) (name : String) : Bool :=
  m.all (fun p => p.1 ≠ name)

/-- Apply the old-to-new mapping to one variable name: rename it when it is
a key of the mapping, keep it otherwise. -/
def applyMapping (m : List (String × String)) (v : String) : String :=
  match m.find? (fun p => p.1 = v) with
  | some p => p.2
  | none => v

/-- Two distinct legacy names of the mapping share the same final name. -/
def hasDupTargets (m : List (String × String)) : Bool :=
  m.any (fun p => m.any (fun q => q.1 ≠ p.1 ∧ q.2 = p.2))

/-- Error raised by the Dataset Renamer. -/
inductive RenameError where
  | duplicateTarget
deriving DecidableEq

/-- Modelled from the spec: the Dataset Renamer (spec section 4.2).  The
repository delegates the actual rename to an external library call
(src/gcpy/core.py line 537, ds.rename), so the renamer itself, in
particular the DuplicateTargetError check the spec requires of it, is not
code under src/.  Following the spec's words, the renamer renames each
variable whose name is a key of the mapping to its value, leaves other
variables untouched, and fails with DuplicateTargetError, leaving the
dataset unmodified, when two distinct legacy names present in the dataset
map to the same final name.  The dataset is modelled by its ordered list
of variable names. -/
def renameDataset (vars : List String) : Option RenameError × List String :=
  if hasDupTargets (buildMapping vars) then (some RenameError.duplicateTarget, vars)
  else (none, vars.map (applyMapping (buildMapping vars)))

example : convertName "IJ_AVG_S_O3" = .entry "SpeciesConc_O3" := by rfl

example : convertName "DRYD_VEL_O3xx" = .entry "DryDepVel_O3" := by rfl

example : convertName "BIOGSRCE_ISOP" = .entry "EmisISOP_Biogenic" := by rfl

example : convertName "BXHGHT_S_PBL" = .entry "Met_PBLH" := by rfl

example : convertName "DAO_FLDS_TROPPRAW" = .entry "Met_TROPPRAW" := by rfl

example : convertName "DAO_FLDS_PS_PBL" = .noEntry := by rfl

/-! ### Helper lemmas -/

/-- A rule table cannot map a name into a default-append composition and
simultaneously into the netCDF-conflict guard: the two id lists tested at
src/gcpy/core.py lines 487-489 and 492 are disjoint. -/
theorem defaultAppend_conflict_disjoint :
    ∀ s : String, s ∈ defaultAppendIds → s ∈ netcdfConflictIds → False := by
  decide

/-- No canonical fragment of a replace rule is a key of special_vars, so
the override lookup fixes every replace-produced candidate. -/
theorem replace_frag_fixed :
    ∀ r ∈ names, r.2.2 = "replace" → applyOverride r.2.1 = r.2.1 := by
  decide

/-- No value of special_vars is again a key of special_vars, so the
override lookup fixes every overridden name. -/
theorem override_vals_fixed :
    ∀ p ∈ special_vars, applyOverride p.2 = p.2 := by
  decide

/-- If the element at position i of a list satisfies the predicate, then a
first-match scan of the whole list returns the same result as scanning only
the first i+1 elements, and that result is present: elements after
position i never influence a first-match scan. -/
theorem find?_take_of_get {α : Type} (p : α → Bool) :
    ∀ (l : List α) (i : Fin l.length), p (l.get i) = true →
      l.find? p = (l.take (i.val + 1)).find? p ∧ (l.find? p).isSome = true := by
  intro l
  induction l with
  | nil => intro i _; exact absurd i.isLt (by simp)
  | cons a t ih =>
    intro i hp
    cases hpa : p a with
    | true =>
      rw [List.find?_cons_of_pos _ hpa, List.take_succ_cons,
        List.find?_cons_of_pos _ hpa]
      exact ⟨rfl, rfl⟩
    | false =>
      obtain ⟨iv, hlt⟩ := i
      cases iv with
      | zero =>
        rw [show (a :: t).get ⟨0, hlt⟩ = a from rfl, hpa] at hp
        cases hp
      | succ j =>
        have hj : j < t.length := by simpa using hlt
        have hp' : p (t.get ⟨j, hj⟩) = true := by
          rw [show (a :: t).get ⟨j + 1, hlt⟩ = t.get ⟨j, hj⟩ from rfl] at hp
          exact hp
        have hna : ¬ p a = true := by rw [hpa]; exact Bool.false_ne_true
        rw [List.find?_cons_of_neg _ hna, List.take_succ_cons,
          List.find?_cons_of_neg _ hna]
        exact ih ⟨j, hj⟩ hp'

/-- Reduction of convertName once the first-match scan is known to miss. -/
theorem convertName_none (name : String) (hm : firstMatch name = none) :
    convertName name = BranchResult.noEntry := by
  unfold convertName
  rw [hm]

/-- Reduction of convertName once the result of the first-match scan is
known: the remaining branch structure of the loop body. -/
theorem convertName_some (name oldid newid idaction : String)
    (hm : firstMatch name = some (oldid, newid, idaction)) :
    convertName name =
      (if idaction = "skip" then BranchResult.noEntry
       else if idaction = "replace" then BranchResult.entry newid
       else
         if oldid ∈ defaultAppendIds then
           if oldid ∈ netcdfConflictIds then BranchResult.staleNewvar
           else BranchResult.entry (applyOverride (newid ++ "_" ++ lastToken name))
         else if oldid = "IJ_SOA_S_" then
           BranchResult.entry (applyOverride (newid ++ lastToken name))
         else if isSubstr "DRYD_" oldid then
           BranchResult.entry (applyOverride (newid ++ "_" ++ dropLast2 (lastToken name)))
         else if oldid ∈ srcBioIds then
           BranchResult.entry (applyOverride ("Emis" ++ lastToken name ++ "_" ++ newid))
         else BranchResult.noEntry) := by
  unfold convertName
  rw [hm]

/-- Reduction of candidateName once the result of the first-match scan is
known. -/
theorem candidateName_some (name oldid newid idaction : String)
    (hm : firstMatch name = some (oldid, newid, idaction)) :
    candidateName name =
      (if idaction = "skip" then none
       else if idaction = "replace" then some newid
       else
         if oldid ∈ defaultAppendIds then
           if oldid ∈ netcdfConflictIds then none
           else some (newid ++ "_" ++ lastToken name)
         else if oldid = "IJ_SOA_S_" then some (newid ++ lastToken name)
         else if isSubstr "DRYD_" oldid then
           some (newid ++ "_" ++ dropLast2 (lastToken name))
         else if oldid ∈ srcBioIds then
           some ("Emis" ++ lastToken name ++ "_" ++ newid)
         else none) := by
  unfold candidateName
  rw [hm]

/-- The staleNewvar branch of convertName is unreachable: the inner guard
at src/gcpy/core.py line 492 tests oldid, which is there already known to
lie in defaultAppendIds, against the disjoint list netcdfConflictIds. -/
theorem stale_branch_unreachable (name : String) :
    convertName name ≠ BranchResult.staleNewvar := by
  cases hm : firstMatch name with
  | none =>
    rw [convertName_none name hm]
    exact fun hcontra => BranchResult.noConfusion hcontra
  | some r =>
    obtain ⟨oldid, newid, idaction⟩ := r
    rw [convertName_some name oldid newid idaction hm]
    intro hcontra
    split_ifs at hcontra with h1 h2 h3 h4 h5 h6 h7
    exact defaultAppend_conflict_disjoint oldid h3 h4

/-- A name whose loop body yields no entry contributes no key to the
rename mapping, whatever dataset it occurs in. -/
theorem mapping_no_entry_of_noEntry (vars : List String) (name : String)
    (hconv : convertName name = BranchResult.noEntry) :
    noEntryFor (buildMapping vars) name = true := by
  apply List.all_eq_true.mpr
  intro p hp
  obtain ⟨v, hv, hf⟩ := List.mem_filterMap.mp hp
  cases hcv : convertName v with
  | entry n =>
    rw [hcv] at hf
    have hpv : p = (v, n) := by
      injection hf with h1
      exact h1.symm
    subst hpv
    simp only [decide_eq_true_eq]
    intro hvn
    rw [hvn, hconv] at hcv
    cases hcv
  | noEntry => rw [hcv] at hf; cases hf
  | staleNewvar => rw [hcv] at hf; cases hf

/-- No element of defaultAppendIds has DRYD_ as a substring, so the
default-append branch and the dry-deposition branch never overlap. -/
theorem dryd_not_in_defaults :
    ∀ s ∈ defaultAppendIds, isSubstr "DRYD_" s = false := by
  decide

/-- The source/biogenic ids hit none of the earlier composition branches:
they are outside defaultAppendIds, differ from IJ_SOA_S_, and do not
contain DRYD_. -/
theorem srcBio_distinct :
    ∀ s ∈ srcBioIds,
      s ∉ defaultAppendIds ∧ ¬ s = "IJ_SOA_S_" ∧ isSubstr "DRYD_" s = false := by
  decide

/-- Folding the last-token step over a list without underscores appends the
list to the accumulator. -/
theorem foldl_token_no_sep (b : List Char) :
    ∀ acc : List Char, '_' ∉ b →
      b.foldl (fun acc c => if c = '_' then [] else acc ++ [c]) acc = acc ++ b := by
  induction b with
  | nil => intro acc _; simp
  | cons c t ih =>
    intro acc hb
    have hc : ¬ c = '_' := by
      intro hcc
      exact hb (by rw [hcc]; exact List.mem_cons_self _ _)
    rw [List.foldl_cons, if_neg hc,
      ih (acc ++ [c]) (fun ht => hb (List.mem_cons_of_mem _ ht))]
    simp

/-! ### Claims -/

/-- Claim C9: the override lookup is idempotent: replacing a candidate by
its special_vars override when present, twice, yields the same result as
doing it once. -/
theorem claim_C9 (s : String) :
    applyOverride (applyOverride s) = applyOverride s := by
  cases hf : special_vars.find? (fun p => p.1 = s) with
  | none =>
    have h1 : applyOverride s = s := by unfold applyOverride; rw [hf]
    rw [h1]
    exact h1
  | some p =>
    have hmem := List.mem_of_find?_eq_some hf
    have h1 : applyOverride s = p.2 := by unfold applyOverride; rw [hf]
    rw [h1]
    exact override_vals_fixed p hmem

/-- Claim C2: the rule table is scanned in declaration order testing each
pattern as a substring of the legacy name, and the first matching rule
determines the outcome: when the rules at positions i < j both match, the
scan result equals the scan of just the first i+1 rules (rules after
position i, in particular the one at j, never influence it), and a result
exists. -/
theorem claim_C2 (name : String) (i j : Fin names.length) (hij : i.val < j.val)
    (hi : ruleMatches name (names.get i) = true)
    (hj : ruleMatches name (names.get j) = true) :
    firstMatch name = (names.take (i.val + 1)).find? (ruleMatches name) ∧
      (firstMatch name).isSome = true :=
  find?_take_of_get (ruleMatches name) names i hi

/-- Witness for claim C2 at the name DAO_FLDS_PS_PBL, matched both by the
rule at position 37 (pattern DAO_FLDS_PS_PBL) and by the rule at position
38 (pattern DAO_FLDS_). -/
theorem claim_C2_witness :
    firstMatch "DAO_FLDS_PS_PBL" =
        (names.take 38).find? (ruleMatches "DAO_FLDS_PS_PBL") ∧
      (firstMatch "DAO_FLDS_PS_PBL").isSome = true :=
  claim_C2 "DAO_FLDS_PS_PBL" ⟨37, by decide⟩ ⟨38, by decide⟩ (by decide)
    (by decide) (by decide)

/-- Claim C5: a legacy name that matches no rule pattern, or whose first
matching rule has the skip action, contributes no entry to the rename
mapping, whatever dataset it occurs in. -/
theorem claim_C5 (vars : List String) (name : String)
    (h : firstMatch name = none ∨ ∃ o n, firstMatch name = some (o, n, "skip")) :
    noEntryFor (buildMapping vars) name = true := by
  have hconv : convertName name = BranchResult.noEntry := by
    rcases h with h | ⟨o, n, h⟩
    · unfold convertName; rw [h]
    · unfold convertName; rw [h]; simp
  exact mapping_no_entry_of_noEntry vars name hconv

/-- Witness for claim C5: the name FOO matches no rule, hence the mapping
built from a dataset containing it (alongside convertible names) has no
entry for it. -/
theorem claim_C5_witness :
    noEntryFor (buildMapping ["FOO", "IJ_AVG_S_O3", "DUST_SRC_DST1"]) "FOO" = true :=
  claim_C5 ["FOO", "IJ_AVG_S_O3", "DUST_SRC_DST1"] "FOO" (Or.inl (by decide))

/-- Claim C3 (code bug): the netCDF-conflict guard at src/gcpy/core.py
line 492 compares the matched pattern oldid, not the variable name, so it
never fires: the legacy name DAO_FLDS_PS_PBL does yield no entry, but only
because its own skip rule matches first, while DAO_FLDS_TROPPRAW is mapped
to Met_TROPPRAW instead of being skipped as the comment at line 491
intends. -/
theorem claim_C3_bug :
    convertName "DAO_FLDS_PS_PBL" = BranchResult.noEntry ∧
      convertName "DAO_FLDS_TROPPRAW" = BranchResult.entry "Met_TROPPRAW" :=
  ⟨rfl, rfl⟩

/-- Claim C1: whenever a candidate final name is produced (by the replace
branch or by an append composition), the recorded final name is the
candidate after the special_vars override lookup — uniformly for
replace-produced and append-produced candidates — and the keys of the
rename mapping are the raw legacy names themselves, never overridden. -/
theorem claim_C1 :
    (∀ name c : String, candidateName name = some c →
      convertName name = BranchResult.entry (applyOverride c)) ∧
    (∀ vars : List String,
      (buildMapping vars).all (fun p => vars.contains p.1) = true) := by
  constructor
  · intro name c h
    cases hm : firstMatch name with
    | none =>
      unfold candidateName at h
      rw [hm] at h
      exact Option.noConfusion h
    | some r =>
      obtain ⟨oldid, newid, idaction⟩ := r
      have hmem : (oldid, newid, idaction) ∈ names :=
        List.mem_of_find?_eq_some
          (show names.find? (ruleMatches name) = some (oldid, newid, idaction) from hm)
      rw [candidateName_some name oldid newid idaction hm] at h
      rw [convertName_some name oldid newid idaction hm]
      by_cases h1 : idaction = "skip"
      · rw [if_pos h1] at h
        exact Option.noConfusion h
      rw [if_neg h1] at h ⊢
      by_cases h2 : idaction = "replace"
      · rw [if_pos h2] at h ⊢
        injection h with hh
        have hfix := replace_frag_fixed (oldid, newid, idaction) hmem h2
        rw [← hh, hfix]
      rw [if_neg h2] at h ⊢
      split_ifs at h ⊢ <;>
        first
          | exact Option.noConfusion h
          | (injection h with hh; subst hh; rfl)
  · intro vars
    apply List.all_eq_true.mpr
    intro p hp
    obtain ⟨v, hv, hf⟩ := List.mem_filterMap.mp hp
    cases hcv : convertName v with
    | entry n =>
      rw [hcv] at hf
      injection hf with h1
      rw [← h1]
      exact List.elem_eq_true_of_mem hv
    | noEntry => rw [hcv] at hf; exact Option.noConfusion hf
    | staleNewvar => rw [hcv] at hf; exact Option.noConfusion hf

/-- Witness for claim C1: the name BXHGHT_S_PBL composes the candidate
Met_PBL, which the override table remaps to Met_PBLH; and the mapping of a
one-variable dataset keeps the raw legacy name as its key. -/
theorem claim_C1_witness :
    convertName "BXHGHT_S_PBL" = BranchResult.entry (applyOverride "Met_PBL") ∧
      (buildMapping ["IJ_AVG_S_O3"]).all
        (fun p => (["IJ_AVG_S_O3"] : List String).contains p.1) = true :=
  ⟨claim_C1.1 "BXHGHT_S_PBL" "Met_PBL" (by decide), claim_C1.2 ["IJ_AVG_S_O3"]⟩

/-- Claim C6: for an append rule the suffix is the portion of the legacy
name after the last underscore (lastTokenL applied after the last
underscore of a name returns the underscore-free tail), the default
composition families compose the candidate as fragment, underscore,
suffix, and in particular IJ_AVG_S_O3 is finally mapped to
SpeciesConc_O3. -/
theorem claim_C6 :
    (∀ a b : List Char, '_' ∉ b → lastTokenL (a ++ '_' :: b) = b) ∧
    (∀ name oldid newid : String,
      firstMatch name = some (oldid, newid, "append") →
      oldid ∈ defaultAppendIds →
      candidateName name = some (newid ++ "_" ++ lastToken name)) ∧
    convertName "IJ_AVG_S_O3" = BranchResult.entry "SpeciesConc_O3" := by
  refine ⟨?_, ?_, rfl⟩
  · intro a b hb
    unfold lastTokenL
    rw [List.foldl_append, List.foldl_cons, if_pos rfl,
      foldl_token_no_sep b [] hb]
    simp
  · intro name oldid newid hm hd
    have hnc : oldid ∉ netcdfConflictIds :=
      fun hc => defaultAppend_conflict_disjoint oldid hd hc
    rw [candidateName_some name oldid newid "append" hm,
      if_neg (by decide : ¬ ("append" : String) = "skip"),
      if_neg (by decide : ¬ ("append" : String) = "replace"),
      if_pos hd, if_neg hnc]

/-- Witness for claim C6: the suffix of AB_O3 after the underscore is O3,
the default-family rule for IJ_AVG_S_O3 composes SpeciesConc_O3, and the
final mapping agrees. -/
theorem claim_C6_witness :
    lastTokenL ("AB".data ++ '_' :: "O3".data) = "O3".data ∧
      candidateName "IJ_AVG_S_O3" = some "SpeciesConc_O3" ∧
      convertName "IJ_AVG_S_O3" = BranchResult.entry "SpeciesConc_O3" :=
  ⟨claim_C6.1 "AB".data "O3".data (by decide),
   claim_C6.2.1 "IJ_AVG_S_O3" "IJ_AVG_S_" "SpeciesConc" (by decide) (by decide),
   claim_C6.2.2⟩

/-- Claim C7: the dry-deposition append family strips the last two
characters from the derived suffix before appending it to the fragment
with an underscore, and in particular DRYD_VEL_O3xx is finally mapped to
DryDepVel_O3. -/
theorem claim_C7 :
    (∀ name oldid newid : String,
      firstMatch name = some (oldid, newid, "append") →
      isSubstr "DRYD_" oldid = true →
      candidateName name = some (newid ++ "_" ++ dropLast2 (lastToken name))) ∧
    convertName "DRYD_VEL_O3xx" = BranchResult.entry "DryDepVel_O3" := by
  refine ⟨?_, rfl⟩
  intro name oldid newid hm hd
  have h3 : oldid ∉ defaultAppendIds := by
    intro hmem
    have hfalse := dryd_not_in_defaults oldid hmem
    rw [hd] at hfalse
    cases hfalse
  have h5 : ¬ oldid = "IJ_SOA_S_" := by
    intro he
    rw [he] at hd
    exact absurd hd (by decide)
  rw [candidateName_some name oldid newid "append" hm,
    if_neg (by decide : ¬ ("append" : String) = "skip"),
    if_neg (by decide : ¬ ("append" : String) = "replace"),
    if_neg h3, if_neg h5, if_pos hd]

/-- Witness for claim C7 at the legacy name DRYD_VEL_O3xx: the composed
candidate drops the trailing two characters of the suffix O3xx, and the
final mapping agrees. -/
theorem claim_C7_witness :
    candidateName "DRYD_VEL_O3xx" = some "DryDepVel_O3" ∧
      convertName "DRYD_VEL_O3xx" = BranchResult.entry "DryDepVel_O3" :=
  ⟨claim_C7.1 "DRYD_VEL_O3xx" "DRYD_VEL_" "DryDepVel" (by decide) (by decide),
   claim_C7.2⟩

/-- Claim C8: the source/biogenic append families compose the candidate as
the literal Emis, the derived suffix, an underscore, and the fragment
moved to the end, and in particular BIOGSRCE_ISOP is finally mapped to
EmisISOP_Biogenic. -/
theorem claim_C8 :
    (∀ name oldid newid : String,
      firstMatch name = some (oldid, newid, "append") →
      oldid ∈ srcBioIds →
      candidateName name = some ("Emis" ++ lastToken name ++ "_" ++ newid)) ∧
    convertName "BIOGSRCE_ISOP" = BranchResult.entry "EmisISOP_Biogenic" := by
  refine ⟨?_, rfl⟩
  intro name oldid newid hm hs
  obtain ⟨h3, h5, h6⟩ := srcBio_distinct oldid hs
  have h6' : ¬ isSubstr "DRYD_" oldid = true := by
    rw [h6]
    exact Bool.false_ne_true
  rw [candidateName_some name oldid newid "append" hm,
    if_neg (by decide : ¬ ("append" : String) = "skip"),
    if_neg (by decide : ¬ ("append" : String) = "replace"),
    if_neg h3, if_neg h5, if_neg h6', if_pos hs]

/-- Witness for claim C8 at the legacy name BIOGSRCE_ISOP: the composed
candidate moves the fragment Biogenic to the end, and the final mapping
agrees. -/
theorem claim_C8_witness :
    candidateName "BIOGSRCE_ISOP" = some "EmisISOP_Biogenic" ∧
      convertName "BIOGSRCE_ISOP" = BranchResult.entry "EmisISOP_Biogenic" :=
  ⟨claim_C8.1 "BIOGSRCE_ISOP" "BIOGSRCE_" "Biogenic" (by decide) (by decide),
   claim_C8.2⟩

/-- Claim C10: a legacy name first matched by the append rule for CV_FLUX_
(fragment CloudConvFlux) or for PG-PP_S_ (fragment POPS) contributes no
entry to the rename mapping: neither pattern occurs in any composition
family list (the default list has CV_FLX_S_, not CV_FLUX_), so such names
fall through every composition branch. -/
theorem claim_C10 (vars : List String) (name : String)
    (h : firstMatch name = some ("CV_FLUX_", "CloudConvFlux", "append") ∨
      firstMatch name = some ("PG-PP_S_", "POPS", "append")) :
    noEntryFor (buildMapping vars) name = true := by
  have hconv : convertName name = BranchResult.noEntry := by
    rcases h with h | h
    · rw [convertName_some name "CV_FLUX_" "CloudConvFlux" "append" h,
        if_neg (by decide : ¬ ("append" : String) = "skip"),
        if_neg (by decide : ¬ ("append" : String) = "replace"),
        if_neg (by decide : ("CV_FLUX_" : String) ∉ defaultAppendIds),
        if_neg (by decide : ¬ ("CV_FLUX_" : String) = "IJ_SOA_S_"),
        if_neg (by decide : ¬ isSubstr "DRYD_" "CV_FLUX_" = true),
        if_neg (by decide : ("CV_FLUX_" : String) ∉ srcBioIds)]
    · rw [convertName_some name "PG-PP_S_" "POPS" "append" h,
        if_neg (by decide : ¬ ("append" : String) = "skip"),
        if_neg (by decide : ¬ ("append" : String) = "replace"),
        if_neg (by decide : ("PG-PP_S_" : String) ∉ defaultAppendIds),
        if_neg (by decide : ¬ ("PG-PP_S_" : String) = "IJ_SOA_S_"),
        if_neg (by decide : ¬ isSubstr "DRYD_" "PG-PP_S_" = true),
        if_neg (by decide : ("PG-PP_S_" : String) ∉ srcBioIds)]
  exact mapping_no_entry_of_noEntry vars name hconv

/-- Witness for claim C10: a dataset containing CV_FLUX_O3 and PG-PP_S_PHE
gets no rename entry for CV_FLUX_O3. -/
theorem claim_C10_witness :
    noEntryFor (buildMapping ["CV_FLUX_O3", "PG-PP_S_PHE"]) "CV_FLUX_O3" = true :=
  claim_C10 ["CV_FLUX_O3", "PG-PP_S_PHE"] "CV_FLUX_O3" (Or.inl (by decide))

/-- Claim C4: renaming a dataset containing two distinct variables that
map to the same final name fails with DuplicateTargetError and returns the
dataset unmodified. -/
theorem claim_C4 (vars : List String) (v1 v2 n : String)
    (h1 : v1 ∈ vars) (h2 : v2 ∈ vars) (hne : ¬ v1 = v2)
    (e1 : convertName v1 = BranchResult.entry n)
    (e2 : convertName v2 = BranchResult.entry n) :
    renameDataset vars = (some RenameError.duplicateTarget, vars) := by
  have m1 : (v1, n) ∈ buildMapping vars :=
    List.mem_filterMap.mpr ⟨v1, h1, by rw [e1]⟩
  have m2 : (v2, n) ∈ buildMapping vars :=
    List.mem_filterMap.mpr ⟨v2, h2, by rw [e2]⟩
  have hdup : hasDupTargets (buildMapping vars) = true := by
    apply List.any_eq_true.mpr
    refine ⟨(v1, n), m1, ?_⟩
    apply List.any_eq_true.mpr
    refine ⟨(v2, n), m2, ?_⟩
    simp only [decide_eq_true_eq]
    exact ⟨fun hv => hne hv.symm, trivial⟩
  unfold renameDataset
  rw [if_pos hdup]

/-- Witness for claim C4: IJ_AVG_S_O3 and XIJ_AVG_S_O3 are distinct legacy
names both mapped to SpeciesConc_O3, so renaming a dataset holding both
fails with DuplicateTargetError and leaves it unchanged. -/
theorem claim_C4_witness :
    renameDataset ["IJ_AVG_S_O3", "XIJ_AVG_S_O3"] =
      (some RenameError.duplicateTarget, ["IJ_AVG_S_O3", "XIJ_AVG_S_O3"]) :=
  claim_C4 ["IJ_AVG_S_O3", "XIJ_AVG_S_O3"] "IJ_AVG_S_O3" "XIJ_AVG_S_O3"
    "SpeciesConc_O3" (by decide) (by decide) (by decide) (by rfl) (by rfl)
